import Mathlib

/-!
# Verification of the Research-26 risk engine (`src/risk/risk_engine.py`)

Shallow embedding of the risk management engine.  Python floats are modelled
as exact rationals (`ℚ`) in the main development; a refined model (`FlQ`)
additionally tracks the IEEE-754 non-finite values (NaN, ±inf) where the
claims are about non-finite configuration, and a real-valued model (`FlR`)
tracks NaN propagation through the pandas statistics of `detect_regime`.
Python dicts (`positions`, insertion ordered) are modelled as association
lists; `datetime.now()` is modelled as an explicit clock argument threaded
into the functions that read it; methods that assign to `self` fields return
the updated engine record alongside their result.
-/

/-- Model of `RiskLevel` enum from the source. -/
inductive RiskLevel where
  | GREEN : RiskLevel
  | YELLOW : RiskLevel
  | ORANGE : RiskLevel
  | RED : RiskLevel
deriving DecidableEq

/-- Model of `CircuitBreakerLevel` enum from the source. -/
inductive CircuitBreakerLevel where
  | NONE : CircuitBreakerLevel
  | LEVEL_1 : CircuitBreakerLevel
  | LEVEL_2 : CircuitBreakerLevel
  | LEVEL_3 : CircuitBreakerLevel
deriving DecidableEq

/-- Model of `RiskAlert` dataclass from the source.  `timestamp` (a `datetime`) is
modelled as an integer clock value. -/
structure RiskAlert where
  level : RiskLevel
  message : String
  metric : String
  current_value : ℚ
  limit_value : ℚ
  timestamp : ℤ
  action_required : Bool
deriving DecidableEq

/-- Model of `Portfolio` dataclass from the source.  `positions` is a Python dict
`symbol -> weight`, modelled as an insertion-ordered association list. -/
structure Portfolio where
  positions : List (String × ℚ)
  nav : ℚ
  cash : ℚ
  timestamp : ℤ
  daily_pnl : ℚ := 0
  daily_pnl_pct : ℚ := 0
deriving DecidableEq

/-- Gross exposure: `sum(abs(weight) for weight in positions.values())`. -/
def grossExposure (positions : List (String × ℚ)) : ℚ :=
  (positions.map (fun kv => |kv.2|)).sum

/-- Net exposure: `sum(positions.values())`. -/
def netExposure (positions : List (String × ℚ)) : ℚ :=
  (positions.map (fun kv => kv.2)).sum

/-- Model of `for symbol in d: d[symbol] = f(d[symbol])` over a dict — pointwise update
of every value, keys and order unchanged. -/
def mapValues (f : ℚ → ℚ) (positions : List (String × ℚ)) : List (String × ℚ) :=
  positions.map (fun kv => (kv.1, f kv.2))

/-- Optional configuration dict passed to `RiskEngine.__init__`; a missing key
is `none` (the source falls back to the `.get` default). -/
structure Config where
  single_name_limit : Option ℚ := none
  sector_limit : Option ℚ := none
  gross_limit : Option ℚ := none
  net_limit : Option ℚ := none
  daily_loss_1 : Option ℚ := none
  daily_loss_2 : Option ℚ := none
  drawdown_30d : Option ℚ := none
  var_confidence : Option ℚ := none
  correlation_threshold : Option ℚ := none
deriving DecidableEq

/-- Model of `RiskEngine` state: the limits/thresholds read from config in `__init__`
plus the mutable fields (`current_breaker_level`, `risk_alerts`,
`portfolio_history`, `correlation_matrix`). -/
structure RiskEngine where
  single_name : ℚ
  sector : ℚ
  gross : ℚ
  net : ℚ
  daily_loss_1 : ℚ
  daily_loss_2 : ℚ
  drawdown_30d : ℚ
  var_confidence : ℚ
  correlation_threshold : ℚ
  current_breaker_level : CircuitBreakerLevel
  risk_alerts : List RiskAlert
  portfolio_history : List Portfolio
  correlation_matrix : List (List ℚ)
deriving DecidableEq

/-- Model of `RiskEngine.__init__`: every limit/threshold is `config.get(key, default)`
(the `config or self._get_default_config()` fallback yields exactly the same
values as the `.get` defaults, so both paths coincide); the mutable state
starts at `NONE` / empty.  The body contains no validation of any kind. -/
def riskEngineInit (config : Option Config) : RiskEngine :=
  { single_name := (config.bind Config.single_name_limit).getD (3/100)
    sector := (config.bind Config.sector_limit).getD (15/100)
    gross := (config.bind Config.gross_limit).getD (150/100)
    net := (config.bind Config.net_limit).getD (50/100)
    daily_loss_1 := (config.bind Config.daily_loss_1).getD (-(15/1000))
    daily_loss_2 := (config.bind Config.daily_loss_2).getD (-(20/1000))
    drawdown_30d := (config.bind Config.drawdown_30d).getD (-(120/1000))
    var_confidence := (config.bind Config.var_confidence).getD (95/100)
    correlation_threshold := (config.bind Config.correlation_threshold).getD (3/10)
    current_breaker_level := CircuitBreakerLevel.NONE
    risk_alerts := []
    portfolio_history := []
    correlation_matrix := [] }

/-- Model of `RiskEngine()` with no configuration argument. -/
def defaultEngine : RiskEngine := riskEngineInit none

/-- Python `list[-n:]`: the last `n` elements. -/
def lastN (n : ℕ) (l : List Portfolio) : List Portfolio :=
  l.drop (l.length - n)

/-- Model of `update_portfolio_history`: append, then keep only the last 252 entries
(`self.portfolio_history = self.portfolio_history[-252:]` when the length
exceeds 252). -/
def update_portfolio_history (e : RiskEngine) (p : Portfolio) : RiskEngine :=
  let h := e.portfolio_history ++ [p]
  let h2 := if 252 < h.length then h.drop (h.length - 252) else h
  { e with portfolio_history := h2 }

/-- Model of `nav_series.expanding().max()` continued from an already-seen maximum. -/
def expMaxFrom (m : ℚ) : List ℚ → List ℚ
  | [] => []
  | x :: xs => max m x :: expMaxFrom (max m x) xs

/-- Model of `nav_series.expanding().max()`: running maximum including the current
element. -/
def expandingMax : List ℚ → List ℚ
  | [] => []
  | x :: xs => x :: expMaxFrom x xs

/-- Model of `(nav_series - rolling_max) / rolling_max` elementwise. -/
def drawdownSeries (navs : List ℚ) : List ℚ :=
  List.zipWith (fun nav m => (nav - m) / m) navs (expandingMax navs)

/-- Model of `pd.Series.min()`; the empty case is never reached behind the ≥ 30 guard. -/
def listMin : List ℚ → ℚ
  | [] => 0
  | x :: xs => xs.foldl min x

/-- Model of `_calculate_30day_drawdown` over a given history list: below 30 snapshots
return 0.0, else the minimum drawdown of the last 30 NAVs against their
running maximum. -/
def calculate_30day_drawdownH (history : List Portfolio) : ℚ :=
  if history.length < 30 then 0
  else listMin (drawdownSeries ((lastN 30 history).map Portfolio.nav))

/-- Model of `_calculate_30day_drawdown(self, portfolio)`: the `portfolio` parameter is
unused by the source body; only `self.portfolio_history` is read. -/
def calculate_30day_drawdown (e : RiskEngine) (_portfolio : Portfolio) : ℚ :=
  calculate_30day_drawdownH e.portfolio_history

/-- Model of `check_breakers`: strict priority — daily loss level 2, then daily loss
level 1, then the 30-day drawdown, else `NONE`; `self.current_breaker_level`
is overwritten with the returned level. -/
def check_breakers (e : RiskEngine) (p : Portfolio) : CircuitBreakerLevel × RiskEngine :=
  if p.daily_pnl_pct ≤ e.daily_loss_2 then
    (CircuitBreakerLevel.LEVEL_2, { e with current_breaker_level := CircuitBreakerLevel.LEVEL_2 })
  else if p.daily_pnl_pct ≤ e.daily_loss_1 then
    (CircuitBreakerLevel.LEVEL_1, { e with current_breaker_level := CircuitBreakerLevel.LEVEL_1 })
  else if calculate_30day_drawdown e p ≤ e.drawdown_30d then
    (CircuitBreakerLevel.LEVEL_3, { e with current_breaker_level := CircuitBreakerLevel.LEVEL_3 })
  else
    (CircuitBreakerLevel.NONE, { e with current_breaker_level := CircuitBreakerLevel.NONE })

/-- Model of `apply_circuit_breaker(self, portfolio, level)`: starts from a copy of
`portfolio.positions`, scales it according to the level, and returns it; the
source assigns to no `self` field, so the engine comes back unchanged. -/
def apply_circuit_breaker (e : RiskEngine) (portfolio : Portfolio)
    (level : CircuitBreakerLevel) : List (String × ℚ) × RiskEngine :=
  let adjusted := portfolio.positions
  let result :=
    if level = CircuitBreakerLevel.LEVEL_1 then
      mapValues (fun w => w * (1/2)) adjusted
    else if level = CircuitBreakerLevel.LEVEL_2 then
      let gross := grossExposure adjusted
      if 0 < gross then mapValues (fun w => w * (1/4 / gross)) adjusted else adjusted
    else if level = CircuitBreakerLevel.LEVEL_3 then
      mapValues (fun w => w * (1/4)) adjusted
    else adjusted
  (result, e)

/-- Model of `pd.Series(navs).pct_change().dropna()` for NaN-free rational NAVs: the
period-over-period returns; `dropna` removes exactly the undefined leading
entry, leaving `navs[i]/navs[i-1] - 1` for `i ≥ 1`. -/
def pctChangeQ (navs : List ℚ) : List ℚ :=
  List.zipWith (fun prev cur => cur / prev - 1) navs navs.tail

/-- Insertion step of the sort performed inside `np.percentile`. -/
def insertSorted (x : ℚ) : List ℚ → List ℚ
  | [] => [x]
  | y :: ys => if x ≤ y then x :: y :: ys else y :: insertSorted x ys

/-- Ascending sort of the sample, as `np.percentile` sorts its input. -/
def sortQ : List ℚ → List ℚ
  | [] => []
  | x :: xs => insertSorted x (sortQ xs)

/-- Model of `np.percentile(xs, q)` with the default linear-interpolation method:
position `h = (n-1)·q/100` in the ascending sort, linearly interpolated
between the neighbouring order statistics. -/
def percentileQ (xs : List ℚ) (q : ℚ) : ℚ :=
  match sortQ xs with
  | [] => 0
  | a :: rest =>
    let n : ℕ := (a :: rest).length
    let pos : ℚ := ((n : ℚ) - 1) * q / 100
    let i : ℕ := (⌊pos⌋).toNat
    let lo := (a :: rest).getD i a
    let hi := (a :: rest).getD (i + 1) lo
    lo + (pos - (i : ℚ)) * (hi - lo)

/-- Model of `calculate_var(self, portfolio)`: the `portfolio` parameter is unused by
the source body.  Fewer than 30 archived snapshots → 0.0; else take the NAVs
of the last 252 snapshots, form period returns, require at least 10 of them
(→ 0.0 otherwise), and return the absolute value of the
`(1 - var_confidence)·100`-th percentile. -/
def calculate_var (e : RiskEngine) (_portfolio : Portfolio) : ℚ :=
  if e.portfolio_history.length < 30 then 0
  else
    let returns := pctChangeQ ((lastN 252 e.portfolio_history).map Portfolio.nav)
    if returns.length < 10 then 0
    else |percentileQ returns ((1 - e.var_confidence) * 100)|

/-- Deterministic rendering of a rational, standing in for the (deterministic)
`%`-formatting of floats inside Python f-strings (`{var:.2%}`, `{c:.2f}`). -/
def ratStr (q : ℚ) : String :=
  toString q.num ++ "/" ++ toString q.den

/-- Loop body of `_check_single_name_limits`: one pass over the positions
dict in insertion order, emitting an alert per breaching symbol. -/
def check_single_name_limits (e : RiskEngine) (now : ℤ) : List (String × ℚ) → List RiskAlert
  | [] => []
  | (symbol, weight) :: rest =>
    (if e.single_name < |weight| then
      [{ level := if e.single_name * (12/10) < |weight| then RiskLevel.RED else RiskLevel.ORANGE
         message := "Single name limit exceeded: " ++ symbol
         metric := "single_name_concentration"
         current_value := |weight|
         limit_value := e.single_name
         timestamp := now
         action_required := true }]
    else []) ++ check_single_name_limits e now rest

/-- Model of `_check_exposure_limits`: the gross check then the net check, each
emitting at most one alert. -/
def check_exposure_limits (e : RiskEngine) (p : Portfolio) (now : ℤ) : List RiskAlert :=
  let gross := grossExposure p.positions
  let net := netExposure p.positions
  (if e.gross < gross then
    [{ level := if e.gross * (11/10) < gross then RiskLevel.RED else RiskLevel.ORANGE
       message := "Gross exposure limit exceeded"
       metric := "gross_exposure"
       current_value := gross
       limit_value := e.gross
       timestamp := now
       action_required := true }]
  else []) ++
  (if e.net < |net| then
    [{ level := RiskLevel.ORANGE
       message := "Net exposure limit exceeded"
       metric := "net_exposure"
       current_value := |net|
       limit_value := e.net
       timestamp := now
       action_required := false }]
  else [])

/-- Model of `_check_var_limits`: VaR against the hard-coded 2% limit (RED above
2% · 1.5 = 3%).  The surrounding `try/except` is dead in this model because
`calculate_var` is total. -/
def check_var_limits (e : RiskEngine) (p : Portfolio) (now : ℤ) : List RiskAlert :=
  let var := calculate_var e p
  if 1/50 < var then
    [{ level := if (1/50 : ℚ) * (15/10) < var then RiskLevel.RED else RiskLevel.ORANGE
       message := "VaR limit exceeded: " ++ ratStr var
       metric := "value_at_risk"
       current_value := var
       limit_value := 1/50
       timestamp := now
       action_required := true }]
  else []

/-- Model of `_check_correlation_limits`: nothing when the matrix is empty, else one
alert when the largest absolute entry (`corr.abs().max().max()`) exceeds
`config.get('correlation_threshold', 0.3)`. -/
def check_correlation_limits (e : RiskEngine) (_portfolio : Portfolio) (now : ℤ) : List RiskAlert :=
  match e.correlation_matrix.flatten with
  | [] => []
  | c :: cs =>
    let max_correlation := (cs.map (fun x => |x|)).foldl max |c|
    if e.correlation_threshold < max_correlation then
      [{ level := RiskLevel.ORANGE
         message := "High correlation detected: " ++ ratStr max_correlation
         metric := "strategy_correlation"
         current_value := max_correlation
         limit_value := e.correlation_threshold
         timestamp := now
         action_required := false }]
    else []

/-- Model of `check_limits`: run the four checks in order, extend the engine's alert
log with the produced alerts, and return them. -/
def check_limits (e : RiskEngine) (p : Portfolio) (now : ℤ) : List RiskAlert × RiskEngine :=
  let alerts :=
    check_single_name_limits e now p.positions ++
    check_exposure_limits e p now ++
    check_var_limits e p now ++
    check_correlation_limits e p now
  (alerts, { e with risk_alerts := e.risk_alerts ++ alerts })

/-- Projection of a `RiskAlert` onto every field except the timestamp. -/
def stripAlert (a : RiskAlert) : RiskLevel × String × String × ℚ × ℚ × Bool :=
  (a.level, a.message, a.metric, a.current_value, a.limit_value, a.action_required)

/-- Refined float model for configuration values: a Python float is either a
finite value (exact rational) or one of the IEEE-754 non-finite values. -/
inductive FlQ where
  | fin : ℚ → FlQ
  | nan : FlQ
  | inf : FlQ
  | ninf : FlQ
deriving DecidableEq

/-- IEEE-754 `<=` on the refined float model: NaN is incomparable to
everything (all comparisons false). -/
def FlQ.leB : FlQ → FlQ → Bool
  | FlQ.nan, _ => false
  | _, FlQ.nan => false
  | FlQ.ninf, _ => true
  | _, FlQ.inf => true
  | FlQ.inf, _ => false
  | _, FlQ.ninf => false
  | FlQ.fin a, FlQ.fin b => decide (a ≤ b)

/-- Configuration dict in the refined float model: values may be non-finite. -/
structure ConfigF where
  single_name_limit : Option FlQ := none
  sector_limit : Option FlQ := none
  gross_limit : Option FlQ := none
  net_limit : Option FlQ := none
  daily_loss_1 : Option FlQ := none
  daily_loss_2 : Option FlQ := none
  drawdown_30d : Option FlQ := none
  var_confidence : Option FlQ := none
  correlation_threshold : Option FlQ := none
deriving DecidableEq

/-- Model of `RiskEngine` state in the refined float model of the configuration
values; portfolio data stays rational (the claims about non-finiteness
concern only the configured limits/thresholds). -/
structure RiskEngineF where
  single_name : FlQ
  sector : FlQ
  gross : FlQ
  net : FlQ
  daily_loss_1 : FlQ
  daily_loss_2 : FlQ
  drawdown_30d : FlQ
  var_confidence : FlQ
  correlation_threshold : FlQ
  current_breaker_level : CircuitBreakerLevel
  risk_alerts : List RiskAlert
  portfolio_history : List Portfolio
  correlation_matrix : List (List ℚ)
deriving DecidableEq

/-- Model of `RiskEngine.__init__` in the refined float model.  The `Except` codomain
models Python's ability to raise from a constructor; the translated body is
the source body, which contains no `raise` and no validation of the supplied
values, so every branch returns `Except.ok`. -/
def riskEngineInitF (config : Option ConfigF) : Except String RiskEngineF :=
  Except.ok
    { single_name := (config.bind ConfigF.single_name_limit).getD (FlQ.fin (3/100))
      sector := (config.bind ConfigF.sector_limit).getD (FlQ.fin (15/100))
      gross := (config.bind ConfigF.gross_limit).getD (FlQ.fin (150/100))
      net := (config.bind ConfigF.net_limit).getD (FlQ.fin (50/100))
      daily_loss_1 := (config.bind ConfigF.daily_loss_1).getD (FlQ.fin (-(15/1000)))
      daily_loss_2 := (config.bind ConfigF.daily_loss_2).getD (FlQ.fin (-(20/1000)))
      drawdown_30d := (config.bind ConfigF.drawdown_30d).getD (FlQ.fin (-(120/1000)))
      var_confidence := (config.bind ConfigF.var_confidence).getD (FlQ.fin (95/100))
      correlation_threshold := (config.bind ConfigF.correlation_threshold).getD (FlQ.fin (3/10))
      current_breaker_level := CircuitBreakerLevel.NONE
      risk_alerts := []
      portfolio_history := []
      correlation_matrix := [] }

/-- Model of `check_breakers` in the refined float model: the same priority chain,
with the Python float comparisons evaluated by the IEEE rules (so a NaN
threshold makes its comparison false). -/
def check_breakersF (e : RiskEngineF) (p : Portfolio) : CircuitBreakerLevel × RiskEngineF :=
  if FlQ.leB (FlQ.fin p.daily_pnl_pct) e.daily_loss_2 then
    (CircuitBreakerLevel.LEVEL_2, { e with current_breaker_level := CircuitBreakerLevel.LEVEL_2 })
  else if FlQ.leB (FlQ.fin p.daily_pnl_pct) e.daily_loss_1 then
    (CircuitBreakerLevel.LEVEL_1, { e with current_breaker_level := CircuitBreakerLevel.LEVEL_1 })
  else if FlQ.leB (FlQ.fin (calculate_30day_drawdownH e.portfolio_history)) e.drawdown_30d then
    (CircuitBreakerLevel.LEVEL_3, { e with current_breaker_level := CircuitBreakerLevel.LEVEL_3 })
  else
    (CircuitBreakerLevel.NONE, { e with current_breaker_level := CircuitBreakerLevel.NONE })

/-- Real-valued float model for the `detect_regime` price pipeline: a pandas
cell is either a (real) number or NaN.  NaN propagates through arithmetic and
makes every comparison false, exactly as in IEEE-754. -/
inductive FlR where
  | fin : ℝ → FlR
  | nan : FlR

/-- Is this cell NaN? -/
def FlR.isNan : FlR → Bool
  | FlR.nan => true
  | FlR.fin _ => false

/-- Extract the numeric value of a non-NaN cell. -/
def FlR.val : FlR → Option ℝ
  | FlR.nan => none
  | FlR.fin x => some x

/-- NaN-propagating division. -/
noncomputable def FlR.divF : FlR → FlR → FlR
  | FlR.nan, _ => FlR.nan
  | FlR.fin _, FlR.nan => FlR.nan
  | FlR.fin a, FlR.fin b => FlR.fin (a / b)

/-- NaN-propagating multiplication. -/
noncomputable def FlR.mulF : FlR → FlR → FlR
  | FlR.nan, _ => FlR.nan
  | FlR.fin _, FlR.nan => FlR.nan
  | FlR.fin a, FlR.fin b => FlR.fin (a * b)

/-- NaN-propagating subtraction. -/
noncomputable def FlR.subF : FlR → FlR → FlR
  | FlR.nan, _ => FlR.nan
  | FlR.fin _, FlR.nan => FlR.nan
  | FlR.fin a, FlR.fin b => FlR.fin (a - b)

/-- IEEE `>`: false whenever either side is NaN. -/
noncomputable def FlR.gtB : FlR → FlR → Bool
  | FlR.fin a, FlR.fin b => if b < a then true else false
  | _, _ => false

/-- IEEE `<`: false whenever either side is NaN. -/
noncomputable def FlR.ltB : FlR → FlR → Bool
  | FlR.fin a, FlR.fin b => if a < b then true else false
  | _, _ => false

/-- IEEE `<=`: false whenever either side is NaN. -/
noncomputable def FlR.leB : FlR → FlR → Bool
  | FlR.fin a, FlR.fin b => if a ≤ b then true else false
  | _, _ => false

/-- IEEE `>=`: false whenever either side is NaN. -/
noncomputable def FlR.geB : FlR → FlR → Bool
  | FlR.fin a, FlR.fin b => if b ≤ a then true else false
  | _, _ => false

/-- Forward fill (`pad`) continued from the last seen value, as performed by
the default `fill_method` of `pandas.Series.pct_change`. -/
def ffillFrom (prev : FlR) : List FlR → List FlR
  | [] => []
  | FlR.nan :: rest => prev :: ffillFrom prev rest
  | FlR.fin v :: rest => FlR.fin v :: ffillFrom (FlR.fin v) rest

/-- Model of `pandas.Series.pct_change()`: pad-fill, then `filled[i]/filled[i-1] - 1`
with an undefined (NaN) first entry. -/
noncomputable def pctChangeR (xs : List FlR) : List FlR :=
  match xs with
  | [] => []
  | _ :: _ =>
    let filled := ffillFrom FlR.nan xs
    FlR.nan :: List.zipWith (fun prev cur => FlR.subF (FlR.divF cur prev) (FlR.fin 1))
      filled filled.tail

/-- Sample mean of a fully-numeric window. -/
noncomputable def meanR (l : List ℝ) : ℝ := l.sum / (l.length : ℝ)

/-- Sample standard deviation (`ddof = 1`, the pandas default) of a
fully-numeric window. -/
noncomputable def stdR (l : List ℝ) : ℝ :=
  Real.sqrt ((l.map (fun x => (x - meanR l) ^ 2)).sum / ((l.length : ℝ) - 1))

/-- Cell `i` of `series.rolling(20).f()`: NaN until 20 observations exist,
NaN when the 20-cell window contains a NaN (`min_periods` equals the window
size), else `f` of the window contents. -/
noncomputable def rollAt (f : List ℝ → ℝ) (xs : List FlR) (i : ℕ) : FlR :=
  if i + 1 < 20 then FlR.nan
  else
    let w := (xs.take (i + 1)).drop (i + 1 - 20)
    if w.any FlR.isNan then FlR.nan
    else FlR.fin (f (w.filterMap FlR.val))

/-- Model of `series.rolling(20).f()` as a series of the same length. -/
noncomputable def rollingApply20 (f : List ℝ → ℝ) (xs : List FlR) : List FlR :=
  (List.range xs.length).map (rollAt f xs)

/-- Model of `detect_regime`: the input is `some closes` when the market data frame
has a readable `close` column, and `none` when accessing it raises (the
`except` branch of the source, which logs a warning and returns UNKNOWN).
The body mirrors the source: returns, 20-period rolling z-style trend score
and annualized volatility, latest values (0 when the series is empty), and
the four-way threshold classification. -/
noncomputable def detect_regime (market_data : Option (List FlR)) : String :=
  match market_data with
  | none => "UNKNOWN"
  | some close =>
    let returns := pctChangeR close
    let trend_score :=
      List.zipWith FlR.divF (rollingApply20 meanR returns) (rollingApply20 stdR returns)
    let current_trend := (trend_score.getLast?).getD (FlR.fin 0)
    let vol_score :=
      (rollingApply20 stdR returns).map (fun x => FlR.mulF x (FlR.fin (Real.sqrt 252)))
    let current_vol := (vol_score.getLast?).getD (FlR.fin 0)
    let trend_threshold : FlR := FlR.fin (1/10)
    let vol_threshold : FlR := FlR.fin (1/5)
    if FlR.gtB current_trend trend_threshold && FlR.ltB current_vol vol_threshold then
      "TREND_LOW_VOL"
    else if FlR.gtB current_trend trend_threshold && FlR.geB current_vol vol_threshold then
      "TREND_HIGH_VOL"
    else if FlR.leB current_trend trend_threshold && FlR.ltB current_vol vol_threshold then
      "CHOP_LOW_VOL"
    else
      "CHOP_HIGH_VOL"

/-- Empty portfolio snapshot used as a neutral concrete input. -/
def pSample : Portfolio :=
  { positions := [], nav := 1, cash := 0, timestamp := 0 }

/-- Portfolio with a −2.5% daily P&L, breaching both daily-loss thresholds of
the default configuration. -/
def pLoss : Portfolio :=
  { positions := [], nav := 1, cash := 0, timestamp := 0
    daily_pnl := -(1/40), daily_pnl_pct := -(1/40) }

/-- Portfolio holding a single 10% position. -/
def pTen : Portfolio :=
  { positions := [("A", 1/10)], nav := 1, cash := 0, timestamp := 0 }

/-- Portfolio holding a 5% single-name position (breaches the default 3%
single-name limit, and its 1.2× escalation). -/
def pBreach : Portfolio :=
  { positions := [("AAPL", 1/20)], nav := 1, cash := 0, timestamp := 0 }

/-- Engine whose archived history holds 30 snapshots whose NAV grows by a
factor of 3 every period (NAV = 3^i; every period return equals exactly 2.0;
each NAV is an exact power of 3, hence exactly representable as a float). -/
def engGrowth : RiskEngine :=
  { defaultEngine with
      portfolio_history :=
        [{ positions := [], nav := 1, cash := 0, timestamp := 0 },
          { positions := [], nav := 3, cash := 0, timestamp := 0 },
          { positions := [], nav := 9, cash := 0, timestamp := 0 },
          { positions := [], nav := 27, cash := 0, timestamp := 0 },
          { positions := [], nav := 81, cash := 0, timestamp := 0 },
          { positions := [], nav := 243, cash := 0, timestamp := 0 },
          { positions := [], nav := 729, cash := 0, timestamp := 0 },
          { positions := [], nav := 2187, cash := 0, timestamp := 0 },
          { positions := [], nav := 6561, cash := 0, timestamp := 0 },
          { positions := [], nav := 19683, cash := 0, timestamp := 0 },
          { positions := [], nav := 59049, cash := 0, timestamp := 0 },
          { positions := [], nav := 177147, cash := 0, timestamp := 0 },
          { positions := [], nav := 531441, cash := 0, timestamp := 0 },
          { positions := [], nav := 1594323, cash := 0, timestamp := 0 },
          { positions := [], nav := 4782969, cash := 0, timestamp := 0 },
          { positions := [], nav := 14348907, cash := 0, timestamp := 0 },
          { positions := [], nav := 43046721, cash := 0, timestamp := 0 },
          { positions := [], nav := 129140163, cash := 0, timestamp := 0 },
          { positions := [], nav := 387420489, cash := 0, timestamp := 0 },
          { positions := [], nav := 1162261467, cash := 0, timestamp := 0 },
          { positions := [], nav := 3486784401, cash := 0, timestamp := 0 },
          { positions := [], nav := 10460353203, cash := 0, timestamp := 0 },
          { positions := [], nav := 31381059609, cash := 0, timestamp := 0 },
          { positions := [], nav := 94143178827, cash := 0, timestamp := 0 },
          { positions := [], nav := 282429536481, cash := 0, timestamp := 0 },
          { positions := [], nav := 847288609443, cash := 0, timestamp := 0 },
          { positions := [], nav := 2541865828329, cash := 0, timestamp := 0 },
          { positions := [], nav := 7625597484987, cash := 0, timestamp := 0 },
          { positions := [], nav := 22876792454961, cash := 0, timestamp := 0 },
          { positions := [], nav := 68630377364883, cash := 0, timestamp := 0 }] }

/-- Engine whose history buffer is exactly full (252 snapshots). -/
def eng252 : RiskEngine :=
  { defaultEngine with portfolio_history := List.replicate 252 pSample }

/-- Engine with exactly 30 archived unit-NAV snapshots. -/
def eng30 : RiskEngine :=
  { defaultEngine with portfolio_history := List.replicate 30 pSample }

/-- A configuration whose circuit-breaker thresholds are all NaN — the
canonical invalid (non-finite) configuration. -/
def invalidConfigF : ConfigF :=
  { daily_loss_1 := some FlQ.nan, daily_loss_2 := some FlQ.nan, drawdown_30d := some FlQ.nan }

/-- Claim C1: `check_breakers` evaluates its conditions in strict priority
order with first match winning — daily loss 2 gives LEVEL_2 regardless of the
drawdown, else daily loss 1 gives LEVEL_1, else a breached 30-day drawdown
gives LEVEL_3, else NONE; in particular a −2.5% daily P&L under the default
LEVEL_2 threshold always yields LEVEL_2. -/
theorem check_breakers_priority (e : RiskEngine) (p : Portfolio) :
    (p.daily_pnl_pct ≤ e.daily_loss_2 →
      (check_breakers e p).1 = CircuitBreakerLevel.LEVEL_2) ∧
    (¬ p.daily_pnl_pct ≤ e.daily_loss_2 → p.daily_pnl_pct ≤ e.daily_loss_1 →
      (check_breakers e p).1 = CircuitBreakerLevel.LEVEL_1) ∧
    (¬ p.daily_pnl_pct ≤ e.daily_loss_2 → ¬ p.daily_pnl_pct ≤ e.daily_loss_1 →
      calculate_30day_drawdown e p ≤ e.drawdown_30d →
      (check_breakers e p).1 = CircuitBreakerLevel.LEVEL_3) ∧
    (¬ p.daily_pnl_pct ≤ e.daily_loss_2 → ¬ p.daily_pnl_pct ≤ e.daily_loss_1 →
      ¬ calculate_30day_drawdown e p ≤ e.drawdown_30d →
      (check_breakers e p).1 = CircuitBreakerLevel.NONE) ∧
    (e.daily_loss_2 = -(20/1000) → p.daily_pnl_pct = -(1/40) →
      (check_breakers e p).1 = CircuitBreakerLevel.LEVEL_2) := by
  refine ⟨fun h1 => ?_, fun h1 h2 => ?_, fun h1 h2 h3 => ?_, fun h1 h2 h3 => ?_,
    fun hd hp => ?_⟩
  · simp [check_breakers, h1]
  · simp [check_breakers, h1, h2]
  · simp [check_breakers, h1, h2, h3]
  · simp [check_breakers, h1, h2, h3]
  · have h1 : p.daily_pnl_pct ≤ e.daily_loss_2 := by rw [hd, hp]; norm_num
    simp [check_breakers, h1]

/-- Witness for C1: the default engine on a −2.5% daily loss. -/
theorem check_breakers_priority_witness :
    (check_breakers defaultEngine pLoss).1 = CircuitBreakerLevel.LEVEL_2 :=
  (check_breakers_priority defaultEngine pLoss).2.2.2.2 rfl rfl

/-- Scaling every weight by `c` scales the gross exposure by `|c|`. -/
theorem grossExposure_scale (c : ℚ) (l : List (String × ℚ)) :
    grossExposure (mapValues (fun w => w * c) l) = grossExposure l * |c| := by
  induction l with
  | nil => simp [grossExposure, mapValues]
  | cons kv rest ih =>
    simp only [grossExposure, mapValues, List.map_cons, List.sum_cons] at ih ⊢
    rw [abs_mul, ih]
    ring

/-- Claim C2: `apply_circuit_breaker` at LEVEL_2 rescales the positions to a
gross exposure of exactly 0.25 whenever the incoming gross exposure is
positive, and returns the positions unchanged when the gross exposure is 0. -/
theorem apply_level2_gross (e : RiskEngine) (p : Portfolio) :
    (0 < grossExposure p.positions →
      grossExposure (apply_circuit_breaker e p CircuitBreakerLevel.LEVEL_2).1 = 1/4) ∧
    (grossExposure p.positions = 0 →
      (apply_circuit_breaker e p CircuitBreakerLevel.LEVEL_2).1 = p.positions) := by
  constructor
  · intro h
    have hrw : (apply_circuit_breaker e p CircuitBreakerLevel.LEVEL_2).1
        = mapValues (fun w => w * (1/4 / grossExposure p.positions)) p.positions := by
      simp [apply_circuit_breaker, h]
    rw [hrw, grossExposure_scale, abs_of_pos (by positivity)]
    field_simp
    ring
  · intro h
    simp [apply_circuit_breaker, h]

/-- Witness for C2: a 10% single position has gross exposure 0.1 > 0, and the
LEVEL_2 response brings the gross exposure to exactly 0.25. -/
theorem apply_level2_gross_witness :
    grossExposure (apply_circuit_breaker defaultEngine pTen CircuitBreakerLevel.LEVEL_2).1
      = 1/4 :=
  (apply_level2_gross defaultEngine pTen).1 (by norm_num [grossExposure, pTen])

/-- Claim C3: the history buffer is capacity-bounded at 252 with FIFO
eviction — after `update_portfolio_history` the length is
`min (previous + 1) 252`; when the buffer is full the oldest entry is
dropped and the relative order of the rest is preserved (`tail ++ [p]`);
the new snapshot is always last. -/
theorem history_capacity_fifo (e : RiskEngine) (p : Portfolio) :
    (update_portfolio_history e p).portfolio_history.length
        = min (e.portfolio_history.length + 1) 252 ∧
    (e.portfolio_history.length = 252 →
      (update_portfolio_history e p).portfolio_history
        = e.portfolio_history.tail ++ [p]) ∧
    (update_portfolio_history e p).portfolio_history.getLast? = some p := by
  simp only [update_portfolio_history]
  by_cases hc : 252 < (e.portfolio_history ++ [p]).length
  · have hlen : (e.portfolio_history ++ [p]).length = e.portfolio_history.length + 1 := by
      simp
    have hk : (e.portfolio_history ++ [p]).length - 252 ≤ e.portfolio_history.length := by
      omega
    have hdrop :
        ((e.portfolio_history ++ [p]).drop ((e.portfolio_history ++ [p]).length - 252))
          = e.portfolio_history.drop ((e.portfolio_history ++ [p]).length - 252) ++ [p] := by
      rw [List.drop_append_eq_append_drop]
      have h0 : (e.portfolio_history ++ [p]).length - 252 - e.portfolio_history.length = 0 := by
        omega
      rw [h0]
      simp
    refine ⟨?_, fun h252 => ?_, ?_⟩
    · rw [if_pos hc]
      simp only [List.length_drop]
      omega
    · rw [if_pos hc, hdrop]
      have : (e.portfolio_history ++ [p]).length - 252 = 1 := by omega
      rw [this, List.drop_one]
    · rw [if_pos hc, hdrop]
      exact List.getLast?_concat _
  · refine ⟨?_, fun h252 => ?_, ?_⟩
    · rw [if_neg hc]
      simp at hc ⊢
      omega
    · exact absurd (by simp [h252] : 252 < (e.portfolio_history ++ [p]).length) hc
    · rw [if_neg hc]
      exact List.getLast?_concat _

/-- Witness for C3: a full 252-entry buffer evicts its first entry on the
next call and appends the new snapshot at the end. -/
theorem history_capacity_fifo_witness :
    (update_portfolio_history eng252 pBreach).portfolio_history
      = (List.replicate 252 pSample).tail ++ [pBreach] :=
  (history_capacity_fifo eng252 pBreach).2.1
    (show (List.replicate 252 pSample).length = 252 from List.length_replicate 252 pSample)

/-- A `foldl min` never exceeds its starting accumulator. -/
theorem foldl_min_le_init (l : List ℚ) (a : ℚ) : l.foldl min a ≤ a := by
  induction l generalizing a with
  | nil => simp
  | cons x xs ih => exact le_trans (ih (min a x)) (min_le_left a x)

/-- Claim C7: the 30-day rolling drawdown is 0 below 30 snapshots and
non-positive (the minimum of pointwise non-positive drawdowns against the
running maximum) once 30 snapshots with positive NAVs are available. -/
theorem drawdown_nonpositive (h : List Portfolio) :
    (h.length < 30 → calculate_30day_drawdownH h = 0) ∧
    (30 ≤ h.length → (∀ p ∈ h, 0 < p.nav) → calculate_30day_drawdownH h ≤ 0) := by
  constructor
  · intro hlt
    simp [calculate_30day_drawdownH, hlt]
  · intro hge _hpos
    rw [calculate_30day_drawdownH, if_neg (by omega)]
    have hlen : ((lastN 30 h).map Portfolio.nav).length = 30 := by
      simp [lastN]
      omega
    match hnv : (lastN 30 h).map Portfolio.nav with
    | [] => rw [hnv] at hlen; simp at hlen
    | x :: rest =>
      have hdd : drawdownSeries (x :: rest)
          = (x - x) / x :: List.zipWith (fun nav m => (nav - m) / m) rest (expMaxFrom x rest) := by
        rfl
      rw [hdd]
      have hzero : (x - x) / x = 0 := by simp
      rw [hzero]
      exact foldl_min_le_init _ 0

/-- Witness for C7: thirty unit-NAV snapshots give a drawdown of at most 0. -/
theorem drawdown_nonpositive_witness :
    calculate_30day_drawdownH eng30.portfolio_history ≤ 0 :=
  (drawdown_nonpositive eng30.portfolio_history).2
    (by rw [show eng30.portfolio_history = List.replicate 30 pSample from rfl,
          List.length_replicate])
    (by intro p hp
        rw [show eng30.portfolio_history = List.replicate 30 pSample from rfl] at hp
        rw [List.eq_of_mem_replicate hp]
        norm_num [pSample])

/-- Counterexample to claim C4: with 30 archived snapshots whose NAV triples
every period, every period return is exactly 2.0, the 5th percentile of the
returns is 2.0, and `calculate_var` returns 2 — outside [0, 1].  (The NAVs
are exact powers of 3, representable exactly in binary floating point, so the
float computation produces the same value.) -/
theorem calculate_var_unit_bound_cex :
    calculate_var engGrowth pSample = 2 ∧ ¬ calculate_var engGrowth pSample ≤ 1 := by
  have h2 : calculate_var engGrowth pSample = 2 := by
    norm_num [calculate_var, engGrowth, defaultEngine, riskEngineInit, lastN,
      pctChangeQ, percentileQ, sortQ, insertSorted, List.zipWith]
  exact ⟨h2, by rw [h2]; norm_num⟩

/-- Claim C4 (amended): `calculate_var` is total and non-negative but NOT
bounded by 1; it returns exactly 0 whenever fewer than 30 snapshots are
archived (and behind the dead `< 10 returns` guard), and otherwise the
absolute value of the `(1 − confidence)·100`-th linear-interpolation
percentile of the period returns of the most recent 252 NAVs — a value that
can exceed 1. -/
theorem calculate_var_amended (e : RiskEngine) (p : Portfolio) :
    0 ≤ calculate_var e p ∧
    (e.portfolio_history.length < 30 → calculate_var e p = 0) ∧
    (¬ e.portfolio_history.length < 30 →
      ¬ (pctChangeQ ((lastN 252 e.portfolio_history).map Portfolio.nav)).length < 10 →
      calculate_var e p
        = |percentileQ (pctChangeQ ((lastN 252 e.portfolio_history).map Portfolio.nav))
            ((1 - e.var_confidence) * 100)|) := by
  refine ⟨?_, fun hlt => ?_, fun h30 h10 => ?_⟩
  · simp only [calculate_var]
    split
    · exact le_refl 0
    · split
      · exact le_refl 0
      · exact abs_nonneg _
  · simp [calculate_var, hlt]
  · simp only [calculate_var]
    rw [if_neg h30, if_neg h10]

/-- Witness for C4 (amended): an empty history returns exactly 0. -/
theorem calculate_var_amended_witness : calculate_var defaultEngine pSample = 0 :=
  (calculate_var_amended defaultEngine pSample).2.1 (by decide)

/-- Model of `mapValues` leaves the key list (and its order) unchanged. -/
theorem mapValues_keys (f : ℚ → ℚ) (l : List (String × ℚ)) :
    (mapValues f l).map Prod.fst = l.map Prod.fst := by
  induction l with
  | nil => rfl
  | cons kv rest ih => simp [mapValues]

/-- Claim C9: `apply_circuit_breaker` is pure — it returns the engine state
unchanged for every level (the source mutates no `self` field and works on a
copy of the input dict, so the input portfolio is untouched), and at level
NONE the returned mapping is deep-equal to the input positions. -/
theorem apply_breaker_pure (e : RiskEngine) (p : Portfolio) (level : CircuitBreakerLevel) :
    (apply_circuit_breaker e p level).2 = e ∧
    (apply_circuit_breaker e p CircuitBreakerLevel.NONE).1 = p.positions := by
  exact ⟨rfl, rfl⟩

/-- Claim C10: `calculate_var` ignores its portfolio argument (its value
depends only on the engine-owned history and configuration), and
`apply_circuit_breaker` depends only on the input positions and level — two
calls with equal positions agree even across different engine states — and
its output carries exactly the input's symbol keys, in order. -/
theorem var_ignores_portfolio (e e2 : RiskEngine) (p1 p2 : Portfolio)
    (level : CircuitBreakerLevel) :
    calculate_var e p1 = calculate_var e p2 ∧
    (p1.positions = p2.positions →
      (apply_circuit_breaker e p1 level).1 = (apply_circuit_breaker e2 p2 level).1) ∧
    (apply_circuit_breaker e p1 level).1.map Prod.fst = p1.positions.map Prod.fst := by
  refine ⟨rfl, fun hp => ?_, ?_⟩
  · simp only [apply_circuit_breaker, hp]
  · simp only [apply_circuit_breaker]
    cases level with
    | NONE => simp
    | LEVEL_1 => simp [mapValues_keys]
    | LEVEL_2 =>
      by_cases hg : 0 < grossExposure p1.positions
      · simp [hg, mapValues_keys]
      · simp [hg]
    | LEVEL_3 => simp [mapValues_keys]

/-- Witness for C10: two snapshots sharing positions but differing in NAV
and P&L produce identical LEVEL_2 adjustments. -/
theorem var_ignores_portfolio_witness :
    (apply_circuit_breaker defaultEngine pTen CircuitBreakerLevel.LEVEL_2).1
      = (apply_circuit_breaker eng30
          { positions := [("A", 1/10)], nav := 5, cash := 7, timestamp := 3,
            daily_pnl := -(1/2), daily_pnl_pct := -(1/2) }
          CircuitBreakerLevel.LEVEL_2).1 :=
  (var_ignores_portfolio defaultEngine eng30 pTen
    { positions := [("A", 1/10)], nav := 5, cash := 7, timestamp := 3,
      daily_pnl := -(1/2), daily_pnl_pct := -(1/2) }
    CircuitBreakerLevel.LEVEL_2).2.1 rfl

/-- Counterexample to claim C6: constructing a `RiskEngine` from a
configuration whose circuit-breaker thresholds are all NaN does NOT raise —
construction succeeds (`Except.ok`) and the resulting engine is usable:
`check_breakers` runs on it and returns NONE (every comparison against a NaN
threshold is false). -/
theorem init_validation_cex :
    (riskEngineInitF (some invalidConfigF)).isOk = true ∧
    (riskEngineInitF (some invalidConfigF)).map
        (fun e => (check_breakersF e pLoss).1) = Except.ok CircuitBreakerLevel.NONE := by
  exact ⟨rfl, rfl⟩

/-- Claim C6 (amended): the constructor performs no validation whatsoever —
for every configuration, including ones with non-finite (NaN/±inf) limit or
threshold values, construction succeeds and simply stores the raw values
(with the `.get` defaults for missing keys); invalid thresholds flow
unchecked into the runtime comparisons. -/
theorem init_no_validation (config : Option ConfigF) :
    (riskEngineInitF config).isOk = true := by
  cases config with
  | none => rfl
  | some c => rfl

/-- The single-name alerts at two clock values agree on every field except
the timestamp. -/
theorem strip_single_time (e : RiskEngine) (t1 t2 : ℤ) (l : List (String × ℚ)) :
    (check_single_name_limits e t1 l).map stripAlert
      = (check_single_name_limits e t2 l).map stripAlert := by
  induction l with
  | nil => rfl
  | cons kv rest ih =>
    obtain ⟨s, w⟩ := kv
    by_cases hc : e.single_name < |w|
    · simp [check_single_name_limits, hc, stripAlert, ih]
    · simp [check_single_name_limits, hc, ih]

/-- The exposure alerts at two clock values agree on every field except the
timestamp. -/
theorem strip_exposure_time (e : RiskEngine) (p : Portfolio) (t1 t2 : ℤ) :
    (check_exposure_limits e p t1).map stripAlert
      = (check_exposure_limits e p t2).map stripAlert := by
  by_cases h1 : e.gross < grossExposure p.positions <;>
    by_cases h2 : e.net < |netExposure p.positions| <;>
      simp [check_exposure_limits, h1, h2, stripAlert]

/-- The VaR alert at two clock values agrees on every field except the
timestamp. -/
theorem strip_var_time (e : RiskEngine) (p : Portfolio) (t1 t2 : ℤ) :
    (check_var_limits e p t1).map stripAlert
      = (check_var_limits e p t2).map stripAlert := by
  simp only [check_var_limits]
  split <;> simp [stripAlert]

/-- The correlation alert at two clock values agrees on every field except
the timestamp. -/
theorem strip_corr_time (e : RiskEngine) (p : Portfolio) (t1 t2 : ℤ) :
    (check_correlation_limits e p t1).map stripAlert
      = (check_correlation_limits e p t2).map stripAlert := by
  match hm : e.correlation_matrix.flatten with
  | [] => simp [check_correlation_limits, hm]
  | c :: cs =>
    by_cases h : e.correlation_threshold < (cs.map (fun x => |x|)).foldl max |c| <;>
      simp [check_correlation_limits, hm, h, stripAlert]

/-- Claim C8 (amended): two successive `check_limits` calls on the same
portfolio with unchanged history and correlation matrix are deterministic up
to the alert timestamps — the lists are identical in every field except
`timestamp` (which records the wall-clock of each call), and they are fully
bit-identical exactly when the two calls read the same clock value.  (The
first call's append to the engine's alert log does not influence the
second call.) -/
theorem check_limits_idempotent_amended (e : RiskEngine) (p : Portfolio) (t1 t2 : ℤ) :
    (t1 = t2 → (check_limits e p t1).1 = (check_limits (check_limits e p t1).2 p t2).1) ∧
    (check_limits e p t1).1.map stripAlert
      = (check_limits (check_limits e p t1).2 p t2).1.map stripAlert := by
  have hsingle : ∀ (x : List RiskAlert) (l : List (String × ℚ)),
      check_single_name_limits { e with risk_alerts := x } t2 l
        = check_single_name_limits e t2 l := by
    intro x l
    induction l with
    | nil => rfl
    | cons kv rest ih =>
      obtain ⟨s, w⟩ := kv
      simp only [check_single_name_limits]
      rw [ih]
  have hsnd : (check_limits e p t1).2
      = { e with risk_alerts := e.risk_alerts ++ (check_limits e p t1).1 } := rfl
  have hlog : ∀ x : List RiskAlert,
      (check_limits { e with risk_alerts := x } p t2).1 = (check_limits e p t2).1 := by
    intro x
    simp only [check_limits]
    rw [hsingle]
    rfl
  have hstate : (check_limits (check_limits e p t1).2 p t2).1 = (check_limits e p t2).1 := by
    rw [hsnd, hlog]
  constructor
  · intro h
    rw [hstate, h]
  · rw [hstate]
    simp only [check_limits, List.map_append]
    rw [strip_single_time e t1 t2, strip_exposure_time e p t1 t2, strip_var_time e p t1 t2,
      strip_corr_time e p t1 t2]

/-- Witness for C8 (amended): at equal clock values the two alert lists are
bit-identical. -/
theorem check_limits_idempotent_amended_witness :
    (check_limits defaultEngine pBreach 0).1
      = (check_limits (check_limits defaultEngine pBreach 0).2 pBreach 0).1 :=
  (check_limits_idempotent_amended defaultEngine pBreach 0 0).1 rfl

/-- Counterexample to claim C8: two successive `check_limits` calls on the
same breaching portfolio (5% single-name weight) read different wall-clock
values, so the two alert lists differ in the `timestamp` field and are not
bit-identical. -/
theorem check_limits_idempotent_cex :
    (check_limits defaultEngine pBreach 0).1
      ≠ (check_limits (check_limits defaultEngine pBreach 0).2 pBreach 1).1 := by
  have h0 : (check_limits defaultEngine pBreach 0).1
      = [{ level := RiskLevel.RED, message := "Single name limit exceeded: AAPL",
           metric := "single_name_concentration", current_value := 1/20,
           limit_value := 3/100, timestamp := 0, action_required := true }] := by
    norm_num [check_limits, check_single_name_limits, check_exposure_limits,
      check_var_limits, check_correlation_limits, calculate_var,
      defaultEngine, riskEngineInit, pBreach, grossExposure, netExposure,
      abs_of_nonneg, Option.getD_none, Option.none_bind]
    rfl
  have h1 : (check_limits (check_limits defaultEngine pBreach 0).2 pBreach 1).1
      = [{ level := RiskLevel.RED, message := "Single name limit exceeded: AAPL",
           metric := "single_name_concentration", current_value := 1/20,
           limit_value := 3/100, timestamp := 1, action_required := true }] := by
    norm_num [check_limits, check_single_name_limits, check_exposure_limits,
      check_var_limits, check_correlation_limits, calculate_var,
      defaultEngine, riskEngineInit, pBreach, grossExposure, netExposure,
      abs_of_nonneg, Option.getD_none, Option.none_bind]
    rfl
  rw [h0, h1]
  simp

/-- Forward filling preserves the series length. -/
theorem length_ffillFrom (prev : FlR) (xs : List FlR) :
    (ffillFrom prev xs).length = xs.length := by
  induction xs generalizing prev with
  | nil => rfl
  | cons x rest ih => cases x <;> simp [ffillFrom, ih]

/-- Model of `pct_change` preserves the series length. -/
theorem length_pctChangeR (xs : List FlR) : (pctChangeR xs).length = xs.length := by
  cases xs with
  | nil => rfl
  | cons a rest =>
    simp [pctChangeR, List.length_zipWith, length_ffillFrom]

/-- The last element of a mapped range is the function at the last index. -/
theorem getLast_map_range (g : ℕ → FlR) (L : ℕ) (h : 0 < L) :
    ((List.range L).map g).getLast? = some (g (L - 1)) := by
  cases L with
  | zero => omega
  | succ n =>
    rw [List.range_succ, List.map_append]
    simp

/-- Zipping two maps over the same list is a single map. -/
theorem zipWith_map_same (h : FlR → FlR → FlR) (g1 g2 : ℕ → FlR) (l : List ℕ) :
    List.zipWith h (l.map g1) (l.map g2) = l.map (fun x => h (g1 x) (g2 x)) := by
  induction l with
  | nil => rfl
  | cons x rest ih => simp [ih]

/-- A rolling-20 statistic of a series of length ≤ 20 whose first cell is NaN
is NaN at the last position: either the window is still incomplete, or (at
length exactly 20) the complete window contains the NaN first cell. -/
theorem rollAt_last_nan (f : List ℝ → ℝ) (t : List FlR) (hlt : t.length + 1 ≤ 20) :
    rollAt f (FlR.nan :: t) ((FlR.nan :: t).length - 1) = FlR.nan := by
  simp only [List.length_cons]
  by_cases h20 : t.length + 1 - 1 + 1 < 20
  · rw [rollAt, if_pos h20]
  · rw [rollAt, if_neg h20]
    have h1 : t.length + 1 - 1 + 1 = 20 := by omega
    rw [h1]
    have htake : (FlR.nan :: t).take 20 = FlR.nan :: t := by
      apply List.take_of_length_le
      simp
      omega
    rw [htake]
    simp [FlR.isNan]

/-- Counterexample to claim C5: a five-element constant price series is far
too short for the 20-period rolling statistics (they are all NaN), yet
`detect_regime` does not return UNKNOWN — every NaN comparison is false, so
the if-chain falls through to CHOP_HIGH_VOL.  No exception is raised, so the
`except` branch that produces UNKNOWN is never taken. -/
theorem detect_regime_unknown_cex :
    detect_regime (some [FlR.fin 1, FlR.fin 1, FlR.fin 1, FlR.fin 1, FlR.fin 1])
      = "CHOP_HIGH_VOL" ∧ "CHOP_HIGH_VOL" ≠ "UNKNOWN" := by
  exact ⟨rfl, by decide⟩

/-- Claim C5 (amended): `detect_regime` is total and never raises — a failure
to read the close column (the source's `except` path) yields UNKNOWN, and its
result is always one of the five labels; but insufficient data does NOT
yield UNKNOWN: for every nonempty price series of length at most 20 the
rolling statistics are NaN, every NaN comparison is false, and the function
returns CHOP_HIGH_VOL. -/
theorem detect_regime_amended (md : Option (List FlR)) (xs : List FlR) :
    detect_regime none = "UNKNOWN" ∧
    (detect_regime md = "TREND_LOW_VOL" ∨ detect_regime md = "TREND_HIGH_VOL" ∨
      detect_regime md = "CHOP_LOW_VOL" ∨ detect_regime md = "CHOP_HIGH_VOL" ∨
      detect_regime md = "UNKNOWN") ∧
    (1 ≤ xs.length → xs.length ≤ 20 → detect_regime (some xs) = "CHOP_HIGH_VOL") := by
  refine ⟨rfl, ?_, fun h1 h20 => ?_⟩
  · cases md with
    | none => simp [detect_regime]
    | some close =>
      simp only [detect_regime]
      split
      · simp
      · split
        · simp
        · split
          · simp
          · simp
  · obtain ⟨a, rest, rfl⟩ : ∃ a rest, xs = a :: rest := by
      cases xs with
      | nil => simp at h1
      | cons a rest => exact ⟨a, rest, rfl⟩
    obtain ⟨t, ht⟩ : ∃ t, pctChangeR (a :: rest) = FlR.nan :: t := ⟨_, rfl⟩
    have hlt : t.length + 1 ≤ 20 := by
      have hl := length_pctChangeR (a :: rest)
      rw [ht] at hl
      simp at hl h20
      omega
    have hpos : 0 < (pctChangeR (a :: rest)).length := by
      rw [ht]
      simp
    have htrend : (List.zipWith FlR.divF (rollingApply20 meanR (pctChangeR (a :: rest)))
        (rollingApply20 stdR (pctChangeR (a :: rest)))).getLast? = some FlR.nan := by
      rw [rollingApply20, rollingApply20, zipWith_map_same,
        getLast_map_range _ _ hpos]
      rw [ht, rollAt_last_nan meanR t hlt, rollAt_last_nan stdR t hlt]
      rfl
    have hvol : ((rollingApply20 stdR (pctChangeR (a :: rest))).map
        (fun x => FlR.mulF x (FlR.fin (Real.sqrt 252)))).getLast? = some FlR.nan := by
      rw [rollingApply20, List.map_map]
      have : (fun x => FlR.mulF x (FlR.fin (Real.sqrt 252))) ∘ rollAt stdR (pctChangeR (a :: rest))
          = fun i => FlR.mulF (rollAt stdR (pctChangeR (a :: rest)) i) (FlR.fin (Real.sqrt 252)) := rfl
      rw [this, getLast_map_range _ _ hpos]
      rw [ht, rollAt_last_nan stdR t hlt]
      rfl
    simp only [detect_regime, htrend, hvol, Option.getD_some]
    rfl

/-- Witness for C5 (amended): a three-element constant series (too short for
the 20-period statistics) classifies as CHOP_HIGH_VOL, and a missing close
column yields UNKNOWN. -/
theorem detect_regime_amended_witness :
    detect_regime none = "UNKNOWN" ∧
    detect_regime (some [FlR.fin 1, FlR.fin 1, FlR.fin 1]) = "CHOP_HIGH_VOL" :=
  ⟨(detect_regime_amended none []).1,
    (detect_regime_amended none [FlR.fin 1, FlR.fin 1, FlR.fin 1]).2.2
      (by simp) (by simp)⟩
